import Mathlib

/-!
Verification development for the fathom-webhook repository.

The repository contains two independent Flask applications:

* `src/app.py` — deduplicating relay: `fathom_webhook` (POST /webhook/fathom)
  keeps an in-memory set `processed_calls`, ignores events other than
  `"call.completed"`, and posts a short message to a Slack incoming webhook
  via `post_to_slack`; `health` (GET /health) reports the processed count.
* `src/main.py` — analyzing relay: `webhook` (POST /webhook/fathom) has no
  deduplication and no event filter; it requires a non-empty transcript,
  summarizes it with `analyze_transcript`, posts to Slack through
  `post_to_slack` (slack_sdk client), and `health` reports the two
  configuration flags.

The embedding is a faithful translation of those functions.  External
collaborators (the Flask JSON parser, the requests/slack_sdk/anthropic
network calls, and `json.loads`) are represented by explicit outcome
parameters; everything that is decided by code in the two source files is
translated directly.
-/

namespace Fathom

/-- JSON-like values, used for the value returned by `json.loads` inside
`analyze_transcript` (a Python object of arbitrary JSON shape) and for the
JSON objects the health endpoints return.  Numbers are modelled as `Int`
(the values that actually occur in this program are integers). -/
inductive JVal where
  | null : JVal
  | bool (b : Bool) : JVal
  | num (n : Int) : JVal
  | str (s : String) : JVal
  | arr (xs : List JVal) : JVal
  | obj (kvs : List (String × JVal)) : JVal

/-- The Python type name of a `JVal`, as it appears in CPython error
messages (`json.loads` yields exactly these types for each JSON shape). -/
def pyTypeName : JVal → String
  | .null => "NoneType"
  | .bool _ => "bool"
  | .num _ => "int"
  | .str _ => "str"
  | .arr _ => "list"
  | .obj _ => "dict"

/-- Python `len(x)`: defined for `str`, `list` and `dict`, a `TypeError`
(modelled as `none`) otherwise. -/
def pyLen : JVal → Option Nat
  | .str s => some s.length
  | .arr xs => some xs.length
  | .obj kvs => some kvs.length
  | _ => none

/-- Python `x.get(key, default)`: defined when `x` is a dict (`.obj`),
an `AttributeError` (modelled as `none`) otherwise. -/
def jget (j : JVal) (k : String) (d : JVal) : Option JVal :=
  match j with
  | .obj kvs => some ((kvs.lookup k).getD d)
  | _ => none

/-- The fields of a Fathom call-completion payload that the two handlers
read with `data.get(...)`.  A field that is absent from the JSON object is
`none`.  A truthy JSON object that carries none of these keys is modelled
by a `Payload` whose fields are all `none`. -/
structure Payload where
  event : Option String
  call_id : Option String
  title : Option String
  date : Option String
  duration_seconds : Option Nat
  participants : Option (List String)
  transcript : Option String

/-- The request body as it reaches the handler through Flask.

* `parseError msg` — `request.json` / `request.get_json()` raised while
  parsing the body (unparseable JSON); `msg` is the exception text.  The
  exception propagates into the handler and is caught by its
  `except Exception` clause.
* `falsy pyType` — the body parsed to a falsy value that is not a dict
  (`null`, `[]`, `""`, `0`, `false`); `pyType` is its Python type name.
  In `main.py` the log line `data.get('event', 'unknown')` runs before the
  `if not data` check and raises `AttributeError` on these values.
* `emptyObj` — the body parsed to the empty object (falsy, but `.get`
  works), so both handlers reach their `if not data` branch.
* `obj p` — a truthy JSON object with the fields of `p`. -/
inductive ReqBody where
  | parseError (msg : String)
  | falsy (pyType : String)
  | emptyObj : ReqBody
  | obj (p : Payload)

/-! ## src/app.py -/

/-- Configuration of `src/app.py`: `SLACK_CHANNEL_ID` and
`SLACK_WEBHOOK_URL` (the latter defaults to `""`, which Python treats as
falsy). -/
structure AppConfig where
  slackChannelId : String
  slackWebhookUrl : String

/-- `src/app.py` lines 17-34, `post_to_slack`.  `net` is the outcome of
`requests.post(SLACK_WEBHOOK_URL, json=payload)`: `.ok code` is a response
with status `code`, `.error e` an exception (caught; the function returns
`False`).  Only the webhook URL and the network outcome decide the result;
the payload arguments are carried for fidelity to the source signature. -/
def app_post_to_slack (slackWebhookUrl : String) (net : Except String Nat)
    (_title : String) (_call_id : Option String) (_date : String)
    (_duration : Nat) (_participants : List String) (_transcript : String) : Bool :=
  if slackWebhookUrl = "" then true
  else
    match net with
    | .ok code => code == 200
    | .error _ => false

/-- Response bodies produced by `fathom_webhook` in `src/app.py`:
`jsonify({'error': msg})` or `jsonify({'status': s})`. -/
inductive AppBody where
  | error (msg : String)
  | statusMsg (s : String)
deriving DecidableEq

/-- Result of one request to `fathom_webhook` in `src/app.py`: the
`processed_calls` set after the request, the HTTP status and body, how
many times `post_to_slack` was invoked (0 or 1), and its return value when
it was invoked. -/
structure AppResult where
  newSet : Finset (Option String)
  httpStatus : Nat
  body : AppBody
  notifyCount : Nat
  slackSuccess : Option Bool

/-- `src/app.py` lines 36-75, `fathom_webhook`.  `processed_calls` is the
module-level set (its elements are `Option String` because
`data.get('call_id')` yields `None` when the key is absent, and `None` is
inserted like any other value).  `net` is the outcome of the Slack HTTP
call, passed through to `post_to_slack`.  Note that the handler returns
`{'status': 'success'}` with 200 whether or not `post_to_slack`
succeeded. -/
def fathom_webhook (cfg : AppConfig) (net : Except String Nat)
    (processed_calls : Finset (Option String)) (b : ReqBody) : AppResult :=
  match b with
  | .parseError msg => ⟨processed_calls, 500, .error msg, 0, none⟩
  | .falsy _ => ⟨processed_calls, 400, .error "No payload", 0, none⟩
  | .emptyObj => ⟨processed_calls, 400, .error "No payload", 0, none⟩
  | .obj p =>
    if p.event ≠ some "call.completed" then
      ⟨processed_calls, 200, .statusMsg "ignored", 0, none⟩
    else if p.call_id ∈ processed_calls then
      ⟨processed_calls, 200, .statusMsg "duplicate", 0, none⟩
    else
      let title := p.title.getD "Unknown"
      let date := (p.date.getD "N/A").take 10
      let duration := p.duration_seconds.getD 0
      let participants := p.participants.getD []
      let transcript := p.transcript.getD ""
      let ok := app_post_to_slack cfg.slackWebhookUrl net title p.call_id date
        duration participants transcript
      ⟨insert p.call_id processed_calls, 200, .statusMsg "success", 1, some ok⟩

/-- `src/app.py` lines 77-83, `health`: returns
`{'status': 'healthy', 'timestamp': ..., 'processed_calls': len(processed_calls)}`.
It only reads `processed_calls`; the set is not modified (the function is a
pure read, so the embedding takes the set as input and returns the body). -/
def app_health (timestamp : String) (processed_calls : Finset (Option String)) :
    List (String × JVal) :=
  [("status", .str "healthy"),
   ("timestamp", .str timestamp),
   ("processed_calls", .num processed_calls.card)]

/-! ## src/main.py -/

/-- Configuration of `src/main.py`.  `anthropicConfigured` is
`bool(ANTHROPIC_API_KEY)` (the `anthropic_client` exists iff it is true);
`slackConfigured` is `bool(SLACK_BOT_TOKEN)` (the `slack_client` exists
iff it is true). -/
structure MainConfig where
  anthropicConfigured : Bool
  slackConfigured : Bool
  slackChannel : String

/-- Python whitespace-strip from the left, on the character list of a
string. -/
def stripStart (l : List Char) : List Char := l.dropWhile Char.isWhitespace

/-- Python whitespace-strip from the right. -/
def stripEnd (l : List Char) : List Char :=
  (l.reverse.dropWhile Char.isWhitespace).reverse

/-- Python `text.strip()`. -/
def pyStrip (l : List Char) : List Char := stripEnd (stripStart l)

/-- The leading code-fence marker removed by `analyze_transcript`
(`text.startswith("```json")`). -/
def fenceOpen : List Char := "```json".toList

/-- The trailing code-fence marker removed by `analyze_transcript`
(`text.endswith("```")`). -/
def fenceClose : List Char := "```".toList

/-- `src/main.py` lines 67-72: the code-fence normalization applied to the
provider response text before `json.loads`:
`text = text.strip()`; drop `"```json"` (7 characters) when the text
starts with it; drop the final `"```"` (3 characters, `text[:-3]`) when
the text ends with it. -/
def stripFences (l : List Char) : List Char :=
  let t := pyStrip l
  let t1 := if fenceOpen.isPrefixOf t then t.drop 7 else t
  if fenceClose.isSuffixOf t1 then t1.take (t1.length - 3) else t1

/-- The degraded `AnalysisResult` dict built on every failure path of
`analyze_transcript`: `{"summary": s, "action_items": [], "topics": []}`. -/
def degradedResult (s : String) : JVal :=
  .obj [("summary", .str s), ("action_items", .arr []), ("topics", .arr [])]

/-- The degraded result of the `except` clause of `analyze_transcript`:
summary `"Analysis failed: " + str(e)`. -/
def analysisFailed (e : String) : JVal :=
  degradedResult ("Analysis failed: " ++ e)

/-- CPython `AttributeError` text for `x.get(...)` on a non-dict. -/
def attr_get_error (pyType : String) : String :=
  "\x27" ++ pyType ++ "\x27 object has no attribute \x27get\x27"

/-- CPython `TypeError` text for `len(x)` on a value with no length. -/
def len_error (pyType : String) : String :=
  "object of type \x27" ++ pyType ++ "\x27 has no len()"

/-- `src/main.py` lines 43-78, `analyze_transcript`.

* `anthropicConfigured` — whether `anthropic_client` exists.
* `loads` — `json.loads` on a character list: `.ok` a parsed value, `.error`
  the `JSONDecodeError` text (the exception is caught by the function's
  `except` clause).
* `provider` — the outcome of `anthropic_client.messages.create(...)`
  followed by `response.content[0].text`: `.ok text` the response text,
  `.error e` any raised exception (network error, non-2xx API status
  error, missing content), also caught by the `except` clause.
* `transcript` — only interpolated into history the prompt, which is part
  of the provider interaction and does not influence control flow here.

Line 74 calls `len(result.get('action_items', []))`: when the parsed value
is not a dict, `.get` raises `AttributeError`, and when the retrieved
field has no `len`, a `TypeError` is raised; both are caught by the same
`except` clause and produce a degraded result.  On every path the function
returns a value — it never raises past its boundary (the Lean function is
total by construction). -/
def analyze_transcript (anthropicConfigured : Bool)
    (loads : List Char → Except String JVal)
    (provider : Except String String) (transcript : String) : JVal :=
  if !anthropicConfigured then
    degradedResult "No Anthropic API key configured"
  else
    match provider with
    | .error e => analysisFailed e
    | .ok text =>
      match loads (stripFences text.toList) with
      | .error e => analysisFailed e
      | .ok result =>
        match jget result "action_items" (.arr []) with
        | none => analysisFailed (attr_get_error (pyTypeName result))
        | some ai =>
          match pyLen ai with
          | none => analysisFailed (len_error (pyTypeName ai))
          | some _ => result

/-- `src/main.py` lines 81-136, `post_to_slack`.  Returns `False`
immediately when `slack_client` is `None` (no `SLACK_BOT_TOKEN`);
otherwise the result is the outcome of building the blocks and calling
`chat_postMessage`, `sendOk` (`False` on `SlackApiError` or any other
exception, `True` on a confirmed response).  The call info and analysis
only shape the message text, not the returned boolean. -/
def main_post_to_slack (slackConfigured : Bool) (sendOk : Bool)
    (_call_info : Payload) (_analysis : JVal) : Bool :=
  if !slackConfigured then false
  else sendOk

/-- Response bodies of `webhook` in `src/main.py`:
`{"error": msg}`, `{"status": "processed", "analysis": analysis}`, or the
fixed `{"status": "error", "message": "Failed to post to Slack"}`
(`softError`). -/
inductive MainBody where
  | error (msg : String)
  | processed (analysis : JVal)
  | softError : MainBody

/-- Result of one request to `webhook` in `src/main.py`: HTTP status,
body, whether `analyze_transcript` ran, and how many times
`post_to_slack` was invoked (0 or 1).  There is no processed set in this
file. -/
structure MainResult where
  httpStatus : Nat
  body : MainBody
  analyzerRan : Bool
  notifyCount : Nat

/-- `src/main.py` lines 150-181, `webhook`.  Note: the log line 155 calls
`data.get(...)` before the `if not data` check (hence the `falsy` case
raises and is answered 500); there is no deduplication, no `call_id`
check, and no filter on the `event` field — any truthy object with a
non-empty transcript is analyzed and posted. -/
def webhook (cfg : MainConfig) (loads : List Char → Except String JVal)
    (provider : Except String String) (slackSendOk : Bool) (b : ReqBody) :
    MainResult :=
  match b with
  | .parseError msg => ⟨500, .error msg, false, 0⟩
  | .falsy pyType => ⟨500, .error (attr_get_error pyType), false, 0⟩
  | .emptyObj => ⟨400, .error "No JSON body", false, 0⟩
  | .obj p =>
    let transcript := p.transcript.getD ""
    if transcript = "" then ⟨400, .error "No transcript", false, 0⟩
    else
      let analysis := analyze_transcript cfg.anthropicConfigured loads provider
        transcript
      let ok := main_post_to_slack cfg.slackConfigured slackSendOk p analysis
      if ok then ⟨200, .processed analysis, true, 1⟩
      else ⟨500, .softError, true, 1⟩

/-- `src/main.py` lines 139-147, `health`: returns
`{"status": "healthy", "timestamp": ..., "anthropic_configured": bool(ANTHROPIC_API_KEY), "slack_configured": bool(SLACK_BOT_TOKEN)}`.
A pure read of the configuration; `src/main.py` has no processed set at
all, and no count appears in the body. -/
def main_health (timestamp : String) (cfg : MainConfig) :
    List (String × JVal) :=
  [("status", .str "healthy"),
   ("timestamp", .str timestamp),
   ("anthropic_configured", .bool cfg.anthropicConfigured),
   ("slack_configured", .bool cfg.slackConfigured)]

/-- Does a `JVal` carry a boolean? (discriminator used to inspect health
bodies). -/
def JVal.isBoolVal : JVal → Bool
  | .bool _ => true
  | _ => false

/-- Does a `JVal` carry a number? -/
def JVal.isNumVal : JVal → Bool
  | .num _ => true
  | _ => false

/-! ## Interleaving model of the dedup check (src/app.py lines 46-50)

For concurrency claims we give small-step semantics to the two statements

    if call_id in processed_calls: return duplicate   -- membership test
    processed_calls.add(call_id)                       -- insert, then notify

executed by several concurrent requests that all carry the same `call_id`.
Each request performs the membership test and the insert-and-notify as two
separate steps (there is no lock in the source), and the scheduler may
interleave them arbitrarily.  The shared state is whether `call_id` is in
the set. -/

/-- Control point of one request inside lines 46-50 of `src/app.py`. -/
inductive RacePc where
  | beforeCheck : RacePc
  | passedCheck : RacePc
  | doneDup : RacePc
  | doneNotified : RacePc
deriving DecidableEq

/-- One atomic step of one request: the membership test, or the
insert-and-notify.  The state component is whether the shared `call_id`
is in `processed_calls`. -/
def raceStep (mem : Bool) (pc : RacePc) : Bool × RacePc :=
  match pc with
  | .beforeCheck => if mem then (mem, .doneDup) else (mem, .passedCheck)
  | .passedCheck => (true, .doneNotified)
  | pc => (mem, pc)

/-- Run a schedule: at each schedule entry, the named request (an index
into the list of control points) takes one step. -/
def runSched (sched : List Nat) (st : Bool × List RacePc) : Bool × List RacePc :=
  match sched with
  | [] => st
  | i :: rest =>
    match st.2.get? i with
    | none => runSched rest st
    | some pc =>
      let s := raceStep st.1 pc
      runSched rest (s.1, st.2.set i s.2)

/-- Number of requests that took the non-duplicate path and invoked the
Notifier. -/
def notifiedCount (pcs : List RacePc) : Nat :=
  (pcs.filter (fun pc => pc == RacePc.doneNotified)).length

/-! ## Concrete fixtures used by witnesses and counterexamples -/

/-- A representative completion payload with a call id and a transcript. -/
def samplePayload : Payload :=
  ⟨some "call.completed", some "c1", some "Sync", some "2024-01-02T10:00:00Z",
   some 125, some ["A", "B"], some "t"⟩

/-- A completion payload whose JSON object has no `call_id` key. -/
def noIdPayload : Payload :=
  ⟨some "call.completed", none, none, none, none, none, none⟩

/-- A payload whose event tag is not `"call.completed"` (it carries a
transcript, so `src/main.py` processes it fully). -/
def otherEventPayload : Payload :=
  ⟨some "call.updated", some "c1", none, none, none, none, some "t"⟩

end Fathom

namespace Fathom

/-! ## List-level lemmas about the Python string operations -/

theorem whitespace_newline : Char.isWhitespace '\n' = true := by decide

theorem isPrefixOf_append_self (p l : List Char) : p.isPrefixOf (p ++ l) = true := by
  induction p with
  | nil => simp [List.isPrefixOf]
  | cons a as ih => simp [List.isPrefixOf, ih]

theorem isSuffixOf_append_self (p l : List Char) : p.isSuffixOf (l ++ p) = true := by
  simp [List.isSuffixOf, List.reverse_append, isPrefixOf_append_self]

theorem dropWhile_length_le (p : Char → Bool) (l : List Char) :
    (l.dropWhile p).length ≤ l.length := by
  induction l with
  | nil => simp
  | cons a as ih =>
    by_cases h : p a = true
    · simp only [List.dropWhile_cons, h, if_true]
      exact Nat.le_succ_of_le ih
    · simp [List.dropWhile_cons, h]

theorem stripStart_cons_newline (l : List Char) :
    stripStart ('\n' :: l) = stripStart l := by
  simp [stripStart, List.dropWhile_cons, whitespace_newline]

theorem stripStart_append_of_fixed (l m : List Char) (hne : l ≠ [])
    (hfix : stripStart l = l) : stripStart (l ++ m) = l ++ m := by
  cases l with
  | nil => exact absurd rfl hne
  | cons a as =>
    by_cases h : Char.isWhitespace a = true
    · exfalso
      have hlen : (stripStart (a :: as)).length ≤ as.length := by
        simpa [stripStart, List.dropWhile_cons, h] using
          dropWhile_length_le Char.isWhitespace as
      rw [hfix] at hlen
      simp at hlen
    · simp [stripStart, List.dropWhile_cons, h]

theorem stripEnd_append_of_fixed (l m : List Char) (hne : m ≠ [])
    (hfix : stripEnd m = m) : stripEnd (l ++ m) = l ++ m := by
  have hrev : stripStart m.reverse = m.reverse := by
    have h := congrArg List.reverse hfix
    simpa [stripEnd, stripStart] using h
  have hrne : m.reverse ≠ [] := by simpa using hne
  have h := stripStart_append_of_fixed m.reverse l.reverse hrne hrev
  simp only [stripEnd, List.reverse_append]
  rw [show (m.reverse ++ l.reverse).dropWhile Char.isWhitespace
        = m.reverse ++ l.reverse from h]
  simp

theorem stripEnd_append_newline (l : List Char) :
    stripEnd (l ++ ['\n']) = stripEnd l := by
  simp [stripEnd, List.reverse_append, List.dropWhile_cons, whitespace_newline]

theorem stripStart_append_cases (l m : List Char) :
    stripStart (l ++ m)
      = if stripStart l = [] then stripStart m else stripStart l ++ m := by
  induction l with
  | nil => simp [stripStart]
  | cons a as ih =>
    by_cases h : Char.isWhitespace a = true
    · simpa [stripStart, List.dropWhile_cons, h] using ih
    · simp [stripStart, List.dropWhile_cons, h]

theorem pyStrip_append_newline (l : List Char) :
    pyStrip (l ++ ['\n']) = pyStrip l := by
  by_cases h : stripStart l = []
  · have ha : stripStart (l ++ ['\n']) = [] := by
      rw [stripStart_append_cases, if_pos h]
      simp [stripStart, List.dropWhile_cons, whitespace_newline]
    simp [pyStrip, ha, h, stripEnd]
  · rw [pyStrip, stripStart_append_cases, if_neg h, stripEnd_append_newline]
    rfl

theorem pyStrip_cons_newline (l : List Char) :
    pyStrip ('\n' :: l) = pyStrip l := by
  simp [pyStrip, stripStart_cons_newline]

theorem drop_len_append (a b : List Char) : (a ++ b).drop a.length = b := by
  induction a with
  | nil => simp
  | cons x xs ih => simpa using ih

theorem take_len_append (a b : List Char) : (a ++ b).take a.length = a := by
  induction a with
  | nil => simp
  | cons x xs ih => simpa using ih

theorem drop7_fenceOpen_append (b : List Char) : (fenceOpen ++ b).drop 7 = b := by
  have hlen : fenceOpen.length = 7 := by decide
  rw [← hlen]
  exact drop_len_append fenceOpen b

theorem take_sub3_append_fenceClose (a : List Char) :
    (a ++ fenceClose).take ((a ++ fenceClose).length - 3) = a := by
  have h3 : fenceClose.length = 3 := by decide
  have hlen : (a ++ fenceClose).length = a.length + 3 := by
    simp [List.length_append, h3]
  rw [hlen, Nat.add_sub_cancel]
  exact take_len_append a fenceClose

/-- What `stripFences` does to a provider response that wraps the payload
`p` in a markdown code fence `"```json\n" ++ p ++ "\n```"`: the leading
and trailing fence markers are removed, leaving the payload surrounded by
the two newlines. -/
theorem stripFences_wrapped (p : List Char) :
    stripFences (fenceOpen ++ ('\n' :: (p ++ ['\n'])) ++ fenceClose)
      = '\n' :: (p ++ ['\n']) := by
  have hstrip : pyStrip (fenceOpen ++ ('\n' :: (p ++ ['\n'])) ++ fenceClose)
      = fenceOpen ++ ('\n' :: (p ++ ['\n'])) ++ fenceClose := by
    have h1 : stripStart (fenceOpen ++ (('\n' :: (p ++ ['\n'])) ++ fenceClose))
        = fenceOpen ++ (('\n' :: (p ++ ['\n'])) ++ fenceClose) :=
      stripStart_append_of_fixed fenceOpen _ (by decide) (by decide)
    have h2 : stripEnd ((fenceOpen ++ ('\n' :: (p ++ ['\n']))) ++ fenceClose)
        = (fenceOpen ++ ('\n' :: (p ++ ['\n']))) ++ fenceClose :=
      stripEnd_append_of_fixed _ fenceClose (by decide) (by decide)
    simp only [pyStrip]
    rw [List.append_assoc, h1, ← List.append_assoc]
    exact h2
  have hpre : fenceOpen.isPrefixOf
      (fenceOpen ++ ('\n' :: (p ++ ['\n'])) ++ fenceClose) = true := by
    rw [List.append_assoc]
    exact isPrefixOf_append_self fenceOpen _
  have hdrop : (fenceOpen ++ ('\n' :: (p ++ ['\n'])) ++ fenceClose).drop 7
      = ('\n' :: (p ++ ['\n'])) ++ fenceClose := by
    rw [List.append_assoc]
    exact drop7_fenceOpen_append _
  have hsuf : fenceClose.isSuffixOf (('\n' :: (p ++ ['\n'])) ++ fenceClose) = true :=
    isSuffixOf_append_self fenceClose _
  have htake : (('\n' :: (p ++ ['\n'])) ++ fenceClose).take
      ((('\n' :: (p ++ ['\n'])) ++ fenceClose).length - 3) = '\n' :: (p ++ ['\n']) :=
    take_sub3_append_fenceClose _
  simp only [stripFences]
  rw [hstrip, hpre]
  simp only [if_true]
  rw [hdrop, hsuf]
  simp only [if_true]
  exact htake

/-- Claim C8: `analyze_transcript` strips an optional leading fence marker
(`"```json"`) and an optional trailing fence marker (`"```"`) from the
(whitespace-stripped) provider response before `json.loads`, so a JSON
payload wrapped in a markdown code fence parses to the same value as the
bare payload.  `loads` abstracts `json.loads`, whose value is unchanged by
stripping surrounding whitespace (hypothesis `hws`); `p` is the bare
payload — already whitespace-trimmed and not itself starting or ending
with a fence marker. -/
theorem analyzer_fence_stripping {J : Type} (loads : List Char → J)
    (hws : ∀ l, loads l = loads (pyStrip l)) (p : List Char)
    (hfix : pyStrip p = p)
    (hopen : fenceOpen.isPrefixOf p = false)
    (hclose : fenceClose.isSuffixOf p = false) :
    stripFences (fenceOpen ++ ('\n' :: (p ++ ['\n'])) ++ fenceClose)
        = '\n' :: (p ++ ['\n']) ∧
    loads (stripFences (fenceOpen ++ ('\n' :: (p ++ ['\n'])) ++ fenceClose))
        = loads (stripFences p) := by
  have h1 := stripFences_wrapped p
  have h2 : stripFences p = p := by
    simp [stripFences, hfix, hopen, hclose]
  refine ⟨h1, ?_⟩
  rw [h1, h2, hws ('\n' :: (p ++ ['\n'])), pyStrip_cons_newline,
    pyStrip_append_newline, hfix]

/-- Witness for C8 at the bare payload `"null"` and a concrete
whitespace-insensitive parse function. -/
theorem analyzer_fence_stripping_witness :
    stripFences (fenceOpen ++ ('\n' :: ("null".toList ++ ['\n'])) ++ fenceClose)
        = '\n' :: ("null".toList ++ ['\n']) ∧
    (fun _ : List Char => (0 : Nat))
        (stripFences (fenceOpen ++ ('\n' :: ("null".toList ++ ['\n'])) ++ fenceClose))
      = (fun _ : List Char => (0 : Nat)) (stripFences "null".toList) :=
  analyzer_fence_stripping (fun _ => (0 : Nat)) (fun _ => rfl) "null".toList
    (by decide) (by decide) (by decide)

/-- Claim C6: `analyze_transcript` is total (the embedding is a total
function — every exception in the source is caught by the `except` clause
and becomes a degraded return value, never raised past the boundary), and:
with no provider credential it returns the degraded result whose summary
is the explanatory placeholder and whose lists are empty; on any raised
provider error (network error, non-2xx API status, missing content) it
returns the degraded result carrying the failure reason in the summary;
and on a JSON parse failure it returns the degraded result carrying the
parse error in the summary. -/
theorem analyze_transcript_contract :
    (∀ loads provider t, analyze_transcript false loads provider t
        = degradedResult "No Anthropic API key configured") ∧
    (∀ loads e t, analyze_transcript true loads (.error e) t = analysisFailed e) ∧
    (∀ loads text e t, loads (stripFences text.toList) = Except.error e →
        analyze_transcript true loads (.ok text) t = analysisFailed e) ∧
    (∀ s, degradedResult s
        = .obj [("summary", .str s), ("action_items", .arr []), ("topics", .arr [])]) ∧
    (∀ e, analysisFailed e = degradedResult ("Analysis failed: " ++ e)) := by
  refine ⟨?_, ?_, ?_, fun _ => rfl, fun _ => rfl⟩
  · intro loads provider t
    simp [analyze_transcript]
  · intro loads e t
    simp [analyze_transcript]
  · intro loads text e t h
    have h' : loads (stripFences text.data) = Except.error e := h
    simp [analyze_transcript, h']

/-- Witness for C6: a concrete run in which the parse fails. -/
theorem analyze_transcript_contract_witness :
    analyze_transcript true (fun _ => Except.error "bad") (Except.ok "x") "t"
      = analysisFailed "bad" :=
  analyze_transcript_contract.2.2.1 (fun _ => Except.error "bad") "x" "bad" "t" rfl

/-! ## Intake claims -/

/-- Claim C1 (amended): the deduplicating handler of `src/app.py` is
idempotent — for a fresh `call_id`, the first delivery of a completion
event invokes the Notifier once and is answered 200 `success`; the second
delivery of the same event performs no downstream work, is answered 200
`duplicate`, and leaves the set unchanged.  The handler of `src/main.py`
performs no deduplication: every delivery of an event with a non-empty
transcript invokes the Notifier again (so two identical deliveries give
two Notifier invocations there). -/
theorem webhook_idempotence_amended :
    (∀ (cfg : AppConfig) (net net2 : Except String Nat)
        (s : Finset (Option String)) (p : Payload),
      p.event = some "call.completed" → p.call_id ∉ s →
      (fathom_webhook cfg net s (.obj p)).notifyCount = 1 ∧
      (fathom_webhook cfg net s (.obj p)).body = .statusMsg "success" ∧
      (fathom_webhook cfg net2 (fathom_webhook cfg net s (.obj p)).newSet
          (.obj p)).httpStatus = 200 ∧
      (fathom_webhook cfg net2 (fathom_webhook cfg net s (.obj p)).newSet
          (.obj p)).body = .statusMsg "duplicate" ∧
      (fathom_webhook cfg net2 (fathom_webhook cfg net s (.obj p)).newSet
          (.obj p)).notifyCount = 0 ∧
      (fathom_webhook cfg net2 (fathom_webhook cfg net s (.obj p)).newSet
          (.obj p)).newSet = (fathom_webhook cfg net s (.obj p)).newSet) ∧
    (∀ (cfg : MainConfig) (loads : List Char → Except String JVal)
        (provider : Except String String) (sendOk : Bool) (p : Payload),
      p.transcript.getD "" ≠ "" →
      (webhook cfg loads provider sendOk (.obj p)).notifyCount = 1) := by
  constructor
  · intro cfg net net2 s p hev hnot
    simp [fathom_webhook, hev, hnot]
  · intro cfg loads provider sendOk p htr
    simp only [webhook]
    rw [if_neg htr]
    split <;> rfl

/-- Witness for the amended C1: a concrete second delivery is answered
`duplicate`. -/
theorem webhook_idempotence_amended_witness :
    (fathom_webhook ⟨"GA7RW1JuxjdE4uHdkj1NDQ", ""⟩ (.error "down")
        (fathom_webhook ⟨"GA7RW1JuxjdE4uHdkj1NDQ", ""⟩ (.ok 200) ∅
            (.obj samplePayload)).newSet
        (.obj samplePayload)).body = .statusMsg "duplicate" :=
  (webhook_idempotence_amended.1 ⟨"GA7RW1JuxjdE4uHdkj1NDQ", ""⟩ (.ok 200)
      (.error "down") ∅ samplePayload rfl (Finset.not_mem_empty _)).2.2.2.1

/-- Counterexample to C1 as stated: the handler of `src/main.py` keeps no
processed set, so a delivery of a completion event (here with both
clients configured and the Slack post succeeding) always invokes the
Notifier and is answered 200 `processed` — a second identical delivery
repeats exactly this result (the function takes no state), so two
deliveries produce two Notifier invocations and the second response is
not `duplicate`. -/
theorem main_webhook_not_idempotent :
    (webhook ⟨true, true, "C0AFMM60B96"⟩ (fun _ => Except.error "x")
        (.error "down") true (.obj samplePayload)).notifyCount = 1 ∧
    (webhook ⟨true, true, "C0AFMM60B96"⟩ (fun _ => Except.error "x")
        (.error "down") true (.obj samplePayload)).body
      = .processed (analysisFailed "down") ∧
    (webhook ⟨true, true, "C0AFMM60B96"⟩ (fun _ => Except.error "x")
        (.error "down") true (.obj samplePayload)).httpStatus = 200 :=
  ⟨rfl, rfl, rfl⟩

/-- Claim C2 (amended): a falsy body is answered 400 by `src/app.py`
(`No payload`) with no downstream work and an unchanged set, and the
empty object is answered 400 (`No JSON body`) by `src/main.py`; a body
whose JSON parsing raises is answered 500 by both handlers (the exception
is caught by the handler's own `except` clause, not mapped to 400), as is
a falsy non-dict body in `src/main.py` (its log line calls `data.get`
before the `not data` check); and a JSON object lacking `call_id` is NOT
rejected: `src/app.py` processes it as a success, inserting `None` into
the processed set. -/
theorem malformed_body_amended :
    (∀ (cfg : AppConfig) (net : Except String Nat) (s : Finset (Option String)),
      fathom_webhook cfg net s .emptyObj = ⟨s, 400, .error "No payload", 0, none⟩) ∧
    (∀ (cfg : AppConfig) (net : Except String Nat) (s : Finset (Option String))
        (t : String),
      fathom_webhook cfg net s (.falsy t) = ⟨s, 400, .error "No payload", 0, none⟩) ∧
    (∀ (cfg : AppConfig) (net : Except String Nat) (s : Finset (Option String))
        (msg : String),
      fathom_webhook cfg net s (.parseError msg) = ⟨s, 500, .error msg, 0, none⟩) ∧
    (∀ (cfg : MainConfig) (loads : List Char → Except String JVal)
        (provider : Except String String) (sendOk : Bool),
      webhook cfg loads provider sendOk .emptyObj
        = ⟨400, .error "No JSON body", false, 0⟩) ∧
    (∀ (cfg : MainConfig) (loads : List Char → Except String JVal)
        (provider : Except String String) (sendOk : Bool) (msg : String),
      webhook cfg loads provider sendOk (.parseError msg)
        = ⟨500, .error msg, false, 0⟩) ∧
    (∀ (cfg : MainConfig) (loads : List Char → Except String JVal)
        (provider : Except String String) (sendOk : Bool) (t : String),
      webhook cfg loads provider sendOk (.falsy t)
        = ⟨500, .error (attr_get_error t), false, 0⟩) ∧
    (∀ (cfg : AppConfig) (net : Except String Nat) (s : Finset (Option String))
        (p : Payload),
      p.event = some "call.completed" → p.call_id = none → none ∉ s →
      (fathom_webhook cfg net s (.obj p)).httpStatus = 200 ∧
      (fathom_webhook cfg net s (.obj p)).body = .statusMsg "success" ∧
      (fathom_webhook cfg net s (.obj p)).newSet = insert none s) := by
  refine ⟨fun _ _ _ => rfl, fun _ _ _ _ => rfl, fun _ _ _ _ => rfl,
    fun _ _ _ _ => rfl, fun _ _ _ _ _ => rfl, fun _ _ _ _ _ => rfl, ?_⟩
  intro cfg net s p hev hcid hnone
  simp [fathom_webhook, hev, hcid, hnone]

/-- Witness for the amended C2: the no-`call_id` completion event updates
the set with `None`. -/
theorem malformed_body_amended_witness :
    (fathom_webhook ⟨"c", ""⟩ (.ok 200) ∅ (.obj noIdPayload)).newSet
      = insert none ∅ :=
  (malformed_body_amended.2.2.2.2.2.2 ⟨"c", ""⟩ (.ok 200) ∅ noIdPayload rfl rfl
      (Finset.not_mem_empty _)).2.2

/-- Counterexample to C2 as stated: a completion event whose JSON object
has no `call_id` field is not answered 400 — `src/app.py` answers 200
`success`, invokes the Notifier, and grows the processed set; and an
unparseable body is answered 500, not 400. -/
theorem missing_call_id_accepted :
    (fathom_webhook ⟨"c", ""⟩ (.ok 200) ∅ (.obj noIdPayload)).httpStatus = 200 ∧
    (fathom_webhook ⟨"c", ""⟩ (.ok 200) ∅ (.obj noIdPayload)).body
      = .statusMsg "success" ∧
    (fathom_webhook ⟨"c", ""⟩ (.ok 200) ∅ (.obj noIdPayload)).newSet ≠ ∅ ∧
    (fathom_webhook ⟨"c", ""⟩ (.ok 200) ∅ (.obj noIdPayload)).notifyCount = 1 ∧
    (fathom_webhook ⟨"c", ""⟩ (.ok 200) ∅ (.parseError "boom")).httpStatus = 500 := by
  refine ⟨rfl, rfl, ?_, rfl, rfl⟩
  decide

/-- Claim C3 (amended): with no chat credential configured, the Notifier
of `src/app.py` (`post_to_slack`, empty `SLACK_WEBHOOK_URL`) returns
`True` for every input — a no-op success; but the Notifier of
`src/main.py` (`post_to_slack`, no `slack_client`) returns `False` for
every input. -/
theorem notify_unconfigured_amended :
    (∀ (net : Except String Nat) (title : String) (cid : Option String)
        (date : String) (dur : Nat) (parts : List String) (tr : String),
      app_post_to_slack "" net title cid date dur parts tr = true) ∧
    (∀ (sendOk : Bool) (p : Payload) (a : JVal),
      main_post_to_slack false sendOk p a = false) :=
  ⟨fun _ _ _ _ _ _ _ => rfl, fun _ _ _ => rfl⟩

/-- Counterexample to C3 as stated: the unconfigured Notifier of
`src/main.py` returns `False`, not `True`. -/
theorem main_notify_unconfigured_false :
    main_post_to_slack false true samplePayload JVal.null = false := rfl

/-- Claim C4 (amended): in `src/app.py`, a processed (non-duplicate,
non-ignored) completion event is answered 200 with body
`{"status": "success"}` — with no analysis field and regardless of
whether the Slack post succeeded — and the `call_id` stays in the
processed set.  In `src/main.py`, a processed event is answered 200 with
`{"status": "processed", "analysis": ...}` when the Notifier succeeds
and 500 with `{"status": "error", "message": "Failed to post to Slack"}`
when it fails (there is no processed set in that file). -/
theorem notify_response_amended :
    (∀ (cfg : AppConfig) (net : Except String Nat) (s : Finset (Option String))
        (p : Payload),
      p.event = some "call.completed" → p.call_id ∉ s →
      (fathom_webhook cfg net s (.obj p)).httpStatus = 200 ∧
      (fathom_webhook cfg net s (.obj p)).body = .statusMsg "success" ∧
      p.call_id ∈ (fathom_webhook cfg net s (.obj p)).newSet) ∧
    (∀ (cfg : MainConfig) (loads : List Char → Except String JVal)
        (provider : Except String String) (sendOk : Bool) (p : Payload),
      p.transcript.getD "" ≠ "" →
      (main_post_to_slack cfg.slackConfigured sendOk p
          (analyze_transcript cfg.anthropicConfigured loads provider
            (p.transcript.getD "")) = true →
        webhook cfg loads provider sendOk (.obj p)
          = ⟨200, .processed (analyze_transcript cfg.anthropicConfigured loads
              provider (p.transcript.getD "")), true, 1⟩) ∧
      (main_post_to_slack cfg.slackConfigured sendOk p
          (analyze_transcript cfg.anthropicConfigured loads provider
            (p.transcript.getD "")) = false →
        webhook cfg loads provider sendOk (.obj p) = ⟨500, .softError, true, 1⟩)) := by
  constructor
  · intro cfg net s p hev hnot
    simp [fathom_webhook, hev, hnot]
  · intro cfg loads provider sendOk p htr
    constructor
    · intro hok
      simp only [webhook]
      rw [if_neg htr]
      simp [hok]
    · intro hfail
      simp only [webhook]
      rw [if_neg htr]
      simp [hfail]

/-- Witness for the amended C4: with the Slack client configured and the
send succeeding, a processed event is answered 200 `processed` with the
analysis attached. -/
theorem notify_response_amended_witness :
    webhook ⟨false, true, "C0AFMM60B96"⟩ (fun _ => Except.error "x")
        (.error "down") true (.obj samplePayload)
      = ⟨200, .processed (analyze_transcript false (fun _ => Except.error "x")
          (.error "down") (samplePayload.transcript.getD "")), true, 1⟩ :=
  ((notify_response_amended.2 ⟨false, true, "C0AFMM60B96"⟩
      (fun _ => Except.error "x") (.error "down") true samplePayload
      (by decide)).1 rfl)

/-- Counterexample to C4 as stated: when the Notifier of `src/main.py`
reports failure (here: unconfigured), the handler answers 500 — not a
200 soft failure. -/
theorem main_notify_failure_not_200 :
    (webhook ⟨false, false, "C0AFMM60B96"⟩ (fun _ => Except.error "x")
        (.error "down") false (.obj samplePayload)).httpStatus = 500 ∧
    (webhook ⟨false, false, "C0AFMM60B96"⟩ (fun _ => Except.error "x")
        (.error "down") false (.obj samplePayload)).httpStatus ≠ 200 ∧
    (webhook ⟨false, false, "C0AFMM60B96"⟩ (fun _ => Except.error "x")
        (.error "down") false (.obj samplePayload)).notifyCount = 1 := by
  refine ⟨rfl, ?_, rfl⟩
  decide

/-- Claim C5 (amended): in `src/app.py`, a request whose `event` field is
not `"call.completed"` is answered 200 `ignored`, with no Notifier call
and no change to the processed set.  The handler of `src/main.py` never
inspects the `event` field: for every event value, a body with a
non-empty transcript is analyzed and posted. -/
theorem event_filter_amended :
    (∀ (cfg : AppConfig) (net : Except String Nat) (s : Finset (Option String))
        (p : Payload),
      p.event ≠ some "call.completed" →
      fathom_webhook cfg net s (.obj p)
        = ⟨s, 200, .statusMsg "ignored", 0, none⟩) ∧
    (∀ (cfg : MainConfig) (loads : List Char → Except String JVal)
        (provider : Except String String) (sendOk : Bool) (ev : Option String)
        (p : Payload),
      p.transcript.getD "" ≠ "" →
      (webhook cfg loads provider sendOk (.obj { p with event := ev })).analyzerRan
          = true ∧
      (webhook cfg loads provider sendOk (.obj { p with event := ev })).notifyCount
          = 1) := by
  constructor
  · intro cfg net s p hev
    simp only [fathom_webhook]
    rw [if_pos hev]
  · intro cfg loads provider sendOk ev p htr
    have htr' : ({ p with event := ev } : Payload).transcript.getD "" ≠ "" := htr
    constructor
    · simp only [webhook]
      rw [if_neg htr']
      split <;> rfl
    · simp only [webhook]
      rw [if_neg htr']
      split <;> rfl

/-- Witness for the amended C5: a non-completion event is answered
`ignored` by `src/app.py`. -/
theorem event_filter_amended_witness :
    fathom_webhook ⟨"c", ""⟩ (.ok 200) ∅ (.obj otherEventPayload)
      = ⟨∅, 200, .statusMsg "ignored", 0, none⟩ :=
  event_filter_amended.1 ⟨"c", ""⟩ (.ok 200) ∅ otherEventPayload (by decide)

/-- Counterexample to C5 as stated: `src/main.py` fully processes an
event tagged `"call.updated"` — the Analyzer runs, the Notifier is
invoked, and the response is 200 `processed`, not `ignored`. -/
theorem main_webhook_processes_other_event :
    (webhook ⟨false, true, "C0AFMM60B96"⟩ (fun _ => Except.error "x")
        (.error "down") true (.obj otherEventPayload)).httpStatus = 200 ∧
    (webhook ⟨false, true, "C0AFMM60B96"⟩ (fun _ => Except.error "x")
        (.error "down") true (.obj otherEventPayload)).body
      = .processed (degradedResult "No Anthropic API key configured") ∧
    (webhook ⟨false, true, "C0AFMM60B96"⟩ (fun _ => Except.error "x")
        (.error "down") true (.obj otherEventPayload)).analyzerRan = true ∧
    (webhook ⟨false, true, "C0AFMM60B96"⟩ (fun _ => Except.error "x")
        (.error "down") true (.obj otherEventPayload)).notifyCount = 1 :=
  ⟨rfl, rfl, rfl, rfl⟩

/-- Claim C7: in the interleaving model of `src/app.py` lines 46-50, the
membership test and the insert are two separate steps with no lock, so
the schedule check(0), check(1), insert(0), insert(1) makes BOTH requests
with the same `call_id` pass the duplicate check and invoke the Notifier
(2 non-duplicate outcomes, where the claim demands exactly 1); only a
serialized schedule gives exactly one non-duplicate outcome. -/
theorem dedup_race_two_notifications :
    notifiedCount (runSched [0, 1, 0, 1]
        (false, [.beforeCheck, .beforeCheck])).2 = 2 ∧
    notifiedCount (runSched [0, 0, 1, 1]
        (false, [.beforeCheck, .beforeCheck])).2 = 1 := by
  decide

/-- Claim C9 (amended): `src/app.py`'s health body is exactly
`status`/`timestamp`/`processed_calls` (the count equal to the size of
the processed set, no configuration flags), and `src/main.py`'s is
exactly `status`/`timestamp`/`anthropic_configured`/`slack_configured`
(no processed count).  Both are pure reads: the embedding takes the set
and configuration as inputs and returns only the body. -/
theorem health_report_amended :
    (∀ (ts : String) (s : Finset (Option String)),
      app_health ts s
        = [("status", .str "healthy"), ("timestamp", .str ts),
           ("processed_calls", .num s.card)]) ∧
    (∀ (ts : String) (cfg : MainConfig),
      main_health ts cfg
        = [("status", .str "healthy"), ("timestamp", .str ts),
           ("anthropic_configured", .bool cfg.anthropicConfigured),
           ("slack_configured", .bool cfg.slackConfigured)]) :=
  ⟨fun _ _ => rfl, fun _ _ => rfl⟩

/-- Counterexample to C9 as stated: no single health body carries both
the configuration flags and the processed count — `src/app.py`'s body
contains no boolean value at all (no configured flags), and
`src/main.py`'s body contains no numeric value at all (no processed
count). -/
theorem health_missing_fields :
    ((app_health "2026-01-01T00:00:00" ∅).all (fun kv => !kv.2.isBoolVal)) = true ∧
    ((main_health "2026-01-01T00:00:00" ⟨true, true, "C0AFMM60B96"⟩).all
        (fun kv => !kv.2.isNumVal)) = true := by
  decide

/-- Claim C10: in the deduplicating handler (`src/app.py`), a completion
event lacking `call_id` is handled as a success — `None` is inserted into
the processed set (the count grows by one) — and every later completion
event that also lacks `call_id` is answered 200 `duplicate` with no
Notifier call. -/
theorem missing_call_id_dedup (cfg : AppConfig) (net net2 : Except String Nat)
    (s : Finset (Option String)) (p q : Payload)
    (hp : p.event = some "call.completed") (hpc : p.call_id = none)
    (hq : q.event = some "call.completed") (hqc : q.call_id = none)
    (hnone : none ∉ s) :
    (fathom_webhook cfg net s (.obj p)).httpStatus = 200 ∧
    (fathom_webhook cfg net s (.obj p)).body = .statusMsg "success" ∧
    (fathom_webhook cfg net s (.obj p)).newSet = insert none s ∧
    (fathom_webhook cfg net s (.obj p)).newSet.card = s.card + 1 ∧
    (fathom_webhook cfg net2 (insert none s) (.obj q)).httpStatus = 200 ∧
    (fathom_webhook cfg net2 (insert none s) (.obj q)).body
      = .statusMsg "duplicate" ∧
    (fathom_webhook cfg net2 (insert none s) (.obj q)).notifyCount = 0 := by
  simp [fathom_webhook, hp, hpc, hq, hqc, hnone,
    Finset.card_insert_of_not_mem hnone]

/-- Witness for C10: the second no-`call_id` completion event is answered
`duplicate`. -/
theorem missing_call_id_dedup_witness :
    (fathom_webhook ⟨"c", ""⟩ (.error "down") (insert none ∅)
        (.obj noIdPayload)).body = .statusMsg "duplicate" :=
  (missing_call_id_dedup ⟨"c", ""⟩ (.ok 200) (.error "down") ∅ noIdPayload
      noIdPayload rfl rfl rfl rfl (Finset.not_mem_empty _)).2.2.2.2.2.1

end Fathom
